import Mathlib

/-!
Verification of the TDX quote decoder found in src/src/bin/parserV5.rs.
Bytes are modelled as natural numbers and the input buffer as a list of
bytes.  The Rust code reads fields through a forward cursor over the
buffer; a read past the end of the data and the abort on an unknown TEE
type value are modelled as the two error values of ParseError.
-/

set_option maxRecDepth 65536

namespace TdxQuote

/-- A byte buffer together with the current read position, mirroring the
Rust Cursor over a byte slice. -/
abbrev Cursor := List Nat × Nat

/-- The value of a byte list read as a little-endian integer, as the
from_le_bytes conversions compute it. -/
def leValue : List Nat → Nat
  | [] => 0
  | b :: bs => b + 256 * leValue bs

/-- The n bytes of the buffer starting at position pos. -/
def slice (l : List Nat) (pos n : Nat) : List Nat := (l.drop pos).take n

/-- Decoding failures: a read past the end of the buffer (TruncatedInput),
or the abort on an unknown TEE type value (UnrecognizedTeeType). -/
inductive ParseError where
  | TruncatedInput : ParseError
  | UnrecognizedTeeType : ParseError

/-- read_exact: consume n bytes at the cursor, failing when fewer than n
bytes remain.  Returns the bytes read and the advanced cursor. -/
def read_exact (n : Nat) (c : Cursor) : Except ParseError (List Nat × Cursor) :=
  if c.2 + n ≤ c.1.length then
    Except.ok ((c.1.drop c.2).take n, (c.1, c.2 + n))
  else
    Except.error ParseError.TruncatedInput

/-- read_u16 with little-endian byte order: two bytes, combined LE. -/
def read_u16_le (c : Cursor) : Except ParseError (Nat × Cursor) := do
  let bs ← read_exact 2 c
  pure (leValue bs.1, bs.2)

/-- read_u32 with little-endian byte order: four bytes, combined LE. -/
def read_u32_le (c : Cursor) : Except ParseError (Nat × Cursor) := do
  let bs ← read_exact 4 c
  pure (leValue bs.1, bs.2)

/-- The TEE type enumeration of the source: SGX is 0x00000000 and TDX is
0x00000081. -/
inductive TEEType where
  | SGX : TEEType
  | TDX : TEEType

/-- The quote header record of the source.  The qe_vendor_id field is the
sixteen raw bytes handed to Uuid.from_bytes, kept verbatim here since the
UUID wrapper does not change the bytes. -/
structure QuoteHeader where
  version : Nat
  attestation_key_type : Nat
  tee_type : TEEType
  reserved1 : List Nat
  reserved2 : List Nat
  qe_vendor_id : List Nat
  user_data : List Nat

/-- The seventeen fixed-width byte-array fields of the TD quote body, in
the declaration order of the source. -/
structure TDQuoteBody where
  tee_tcb_svn : List Nat
  mrseam : List Nat
  mrsignerseam : List Nat
  seamattributes : List Nat
  tdattributes : List Nat
  xfam : List Nat
  mrtd : List Nat
  mrconfigid : List Nat
  mrowner : List Nat
  mrownerconfig : List Nat
  rtmr0 : List Nat
  rtmr1 : List Nat
  rtmr2 : List Nat
  rtmr3 : List Nat
  reportdata : List Nat
  tee_tcb_svn_2 : List Nat
  mrservicetd : List Nat

/-- The quote body record: type discriminator, declared size, body. -/
structure QuoteBody where
  td_quote_body_type : Nat
  size : Nat
  td_quote_body : TDQuoteBody

/-- The decoded quote: header plus body. -/
structure Quote where
  header : QuoteHeader
  body : QuoteBody

/-- parse_td_quote_body of the source: seventeen consecutive reads of
widths 16, 48, 48, 8, 8, 8, 48, 48, 48, 48, 48, 48, 48, 48, 64, 16, 48.
Each let holds the bytes read (first component) and the advanced cursor
(second component), which feeds the next read. -/
def parse_td_quote_body (c : Cursor) : Except ParseError (TDQuoteBody × Cursor) := do
  let tee_tcb_svn ← read_exact 16 c
  let mrseam ← read_exact 48 tee_tcb_svn.2
  let mrsignerseam ← read_exact 48 mrseam.2
  let seamattributes ← read_exact 8 mrsignerseam.2
  let tdattributes ← read_exact 8 seamattributes.2
  let xfam ← read_exact 8 tdattributes.2
  let mrtd ← read_exact 48 xfam.2
  let mrconfigid ← read_exact 48 mrtd.2
  let mrowner ← read_exact 48 mrconfigid.2
  let mrownerconfig ← read_exact 48 mrowner.2
  let rtmr0 ← read_exact 48 mrownerconfig.2
  let rtmr1 ← read_exact 48 rtmr0.2
  let rtmr2 ← read_exact 48 rtmr1.2
  let rtmr3 ← read_exact 48 rtmr2.2
  let reportdata ← read_exact 64 rtmr3.2
  let tee_tcb_svn_2 ← read_exact 16 reportdata.2
  let mrservicetd ← read_exact 48 tee_tcb_svn_2.2
  pure ({ tee_tcb_svn := tee_tcb_svn.1, mrseam := mrseam.1,
          mrsignerseam := mrsignerseam.1, seamattributes := seamattributes.1,
          tdattributes := tdattributes.1, xfam := xfam.1, mrtd := mrtd.1,
          mrconfigid := mrconfigid.1, mrowner := mrowner.1,
          mrownerconfig := mrownerconfig.1, rtmr0 := rtmr0.1,
          rtmr1 := rtmr1.1, rtmr2 := rtmr2.1, rtmr3 := rtmr3.1,
          reportdata := reportdata.1, tee_tcb_svn_2 := tee_tcb_svn_2.1,
          mrservicetd := mrservicetd.1 }, mrservicetd.2)

/-- parse_quote of the source: header fields in order, with the TEE type
match aborting on an unknown value, then the body discriminator, the
declared size, and the fixed body. -/
def parse_quote (data : List Nat) : Except ParseError Quote := do
  let version ← read_u16_le (data, 0)
  let attestation_key_type ← read_u16_le version.2
  let tee_raw ← read_u32_le attestation_key_type.2
  let tee_type ←
    if tee_raw.1 = 0x00000000 then pure TEEType.SGX
    else if tee_raw.1 = 0x00000081 then pure TEEType.TDX
    else Except.error ParseError.UnrecognizedTeeType
  let reserved1 ← read_exact 2 tee_raw.2
  let reserved2 ← read_exact 2 reserved1.2
  let qe_vendor_id ← read_exact 16 reserved2.2
  let user_data ← read_exact 20 qe_vendor_id.2
  let td_quote_body_type ← read_u16_le user_data.2
  let size ← read_u32_le td_quote_body_type.2
  let tdb ← parse_td_quote_body size.2
  pure { header := { version := version.1,
                     attestation_key_type := attestation_key_type.1,
                     tee_type := tee_type, reserved1 := reserved1.1,
                     reserved2 := reserved2.1, qe_vendor_id := qe_vendor_id.1,
                     user_data := user_data.1 },
         body := { td_quote_body_type := td_quote_body_type.1,
                   size := size.1, td_quote_body := tdb.1 } }

/-- The seventeen body fields as slices of the buffer at their offsets
relative to the start of the body. -/
def bodyAt (buf : List Nat) (pos : Nat) : TDQuoteBody :=
  { tee_tcb_svn := slice buf pos 16,
    mrseam := slice buf (pos + 16) 48,
    mrsignerseam := slice buf (pos + 64) 48,
    seamattributes := slice buf (pos + 112) 8,
    tdattributes := slice buf (pos + 120) 8,
    xfam := slice buf (pos + 128) 8,
    mrtd := slice buf (pos + 136) 48,
    mrconfigid := slice buf (pos + 184) 48,
    mrowner := slice buf (pos + 232) 48,
    mrownerconfig := slice buf (pos + 280) 48,
    rtmr0 := slice buf (pos + 328) 48,
    rtmr1 := slice buf (pos + 376) 48,
    rtmr2 := slice buf (pos + 424) 48,
    rtmr3 := slice buf (pos + 472) 48,
    reportdata := slice buf (pos + 520) 64,
    tee_tcb_svn_2 := slice buf (pos + 584) 16,
    mrservicetd := slice buf (pos + 600) 48 }

/-- The field-by-field interpretation of a buffer at the documented
offsets: the specification side of the round-trip claims. -/
def interpQuote (buf : List Nat) : Quote :=
  { header := { version := leValue (slice buf 0 2),
                attestation_key_type := leValue (slice buf 2 2),
                tee_type := if leValue (slice buf 4 4) = 0 then TEEType.SGX else TEEType.TDX,
                reserved1 := slice buf 8 2,
                reserved2 := slice buf 10 2,
                qe_vendor_id := slice buf 12 16,
                user_data := slice buf 28 20 },
    body := { td_quote_body_type := leValue (slice buf 48 2),
              size := leValue (slice buf 50 4),
              td_quote_body := bodyAt buf 54 } }

/-- The two little-endian bytes of a 16-bit value. -/
def u16_bytes (v : Nat) : List Nat := [v % 256, v / 256 % 256]

/-- The four little-endian bytes of a 32-bit value. -/
def u32_bytes (v : Nat) : List Nat :=
  [v % 256, v / 256 % 256, v / 65536 % 256, v / 16777216 % 256]

/-- The wire encoding of the TEE type discriminator. -/
def tee_type_bytes : TEEType → List Nat
  | TEEType.SGX => [0, 0, 0, 0]
  | TEEType.TDX => [129, 0, 0, 0]

/-- The encoder of the round-trip claim: the fields of a quote concatenated
in declaration order. -/
def encode_quote (q : Quote) : List Nat :=
  u16_bytes q.header.version ++ u16_bytes q.header.attestation_key_type ++
  tee_type_bytes q.header.tee_type ++ q.header.reserved1 ++
  q.header.reserved2 ++ q.header.qe_vendor_id ++ q.header.user_data ++
  u16_bytes q.body.td_quote_body_type ++ u32_bytes q.body.size ++
  q.body.td_quote_body.tee_tcb_svn ++ q.body.td_quote_body.mrseam ++
  q.body.td_quote_body.mrsignerseam ++ q.body.td_quote_body.seamattributes ++
  q.body.td_quote_body.tdattributes ++ q.body.td_quote_body.xfam ++
  q.body.td_quote_body.mrtd ++ q.body.td_quote_body.mrconfigid ++
  q.body.td_quote_body.mrowner ++ q.body.td_quote_body.mrownerconfig ++
  q.body.td_quote_body.rtmr0 ++ q.body.td_quote_body.rtmr1 ++
  q.body.td_quote_body.rtmr2 ++ q.body.td_quote_body.rtmr3 ++
  q.body.td_quote_body.reportdata ++ q.body.td_quote_body.tee_tcb_svn_2 ++
  q.body.td_quote_body.mrservicetd

/-- The named values printed by extract_tdattributes_info, in the order
the source computes them.  The source renders DEBUG as the text True or
False, modelled as a Bool; the other flags are printed as the 0-or-1
integers the source computes. -/
structure TDAttributesInfo where
  debug : Bool
  tud_reserved : Nat
  sec_reserved : Nat
  sept_ve_disable : Nat
  pks : Nat
  kl : Nat
  other_reserved : Nat
  perfmon : Nat

/-- extract_tdattributes_info of the source.  The eight arguments are the
bytes of the 8-byte TD-attributes array (u8 values).  tud is byte 0, sec
is u32 from the little-endian bytes 0, b1, b2, b3, and other is u64 from
the little-endian bytes 0, 0, 0, 0, b4, b5, b6, b7, exactly as the source
builds them; each flag is a shift and mask of those words. -/
def extract_tdattributes_info (a0 a1 a2 a3 a4 a5 a6 a7 : Nat) :
    TDAttributesInfo :=
  let tud := a0
  let sec := leValue [0, a1, a2, a3]
  let other := leValue [0, 0, 0, 0, a4, a5, a6, a7]
  { debug := (tud &&& 0x01) != 0
    tud_reserved := (tud >>> 1) &&& 0x7F
    sec_reserved := (sec >>> 8) &&& 0xFFFFF
    sept_ve_disable := (sec >>> 27) &&& 0x1
    pks := (sec >>> 30) &&& 0x1
    kl := (sec >>> 31) &&& 0x1
    other_reserved := (other >>> 32) &&& 0x7FFFFFFF
    perfmon := (other >>> 63) &&& 0x1 }

theorem ok_bind {a : α} {f : α → Except ParseError β} :
    Except.ok a >>= f = f a := rfl

theorem error_bind {e : ParseError} {f : α → Except ParseError β} :
    Except.error e >>= f = (Except.error e : Except ParseError β) := rfl

theorem pure_bind_ex {a : α} {f : α → Except ParseError β} :
    (pure a : Except ParseError α) >>= f = f a := rfl

theorem bind_read_ok {β : Type} (n : Nat) (buf : List Nat) (pos : Nat)
    {f : List Nat × Cursor → Except ParseError β} (h : pos + n ≤ buf.length) :
    (read_exact n (buf, pos) >>= f) = f (slice buf pos n, (buf, pos + n)) := by
  simp only [read_exact, slice]
  rw [if_pos h]
  exact ok_bind

theorem bind_read_err {β : Type} (n : Nat) (buf : List Nat) (pos : Nat)
    {f : List Nat × Cursor → Except ParseError β} (h : buf.length < pos + n) :
    (read_exact n (buf, pos) >>= f) =
      Except.error ParseError.TruncatedInput := by
  simp only [read_exact]
  rw [if_neg (by omega)]
  exact error_bind

theorem bind_read_u16_ok {β : Type} (buf : List Nat) (pos : Nat)
    {f : Nat × Cursor → Except ParseError β} (h : pos + 2 ≤ buf.length) :
    (read_u16_le (buf, pos) >>= f) =
      f (leValue (slice buf pos 2), (buf, pos + 2)) := by
  simp only [read_u16_le, bind_read_ok 2 buf pos h, pure_bind_ex]

theorem bind_read_u16_err {β : Type} (buf : List Nat) (pos : Nat)
    {f : Nat × Cursor → Except ParseError β} (h : buf.length < pos + 2) :
    (read_u16_le (buf, pos) >>= f) =
      Except.error ParseError.TruncatedInput := by
  simp only [read_u16_le, bind_read_err 2 buf pos h, error_bind]

theorem bind_read_u32_ok {β : Type} (buf : List Nat) (pos : Nat)
    {f : Nat × Cursor → Except ParseError β} (h : pos + 4 ≤ buf.length) :
    (read_u32_le (buf, pos) >>= f) =
      f (leValue (slice buf pos 4), (buf, pos + 4)) := by
  simp only [read_u32_le, bind_read_ok 4 buf pos h, pure_bind_ex]

theorem bind_read_u32_err {β : Type} (buf : List Nat) (pos : Nat)
    {f : Nat × Cursor → Except ParseError β} (h : buf.length < pos + 4) :
    (read_u32_le (buf, pos) >>= f) =
      Except.error ParseError.TruncatedInput := by
  simp only [read_u32_le, bind_read_err 4 buf pos h, error_bind]

set_option maxHeartbeats 1600000 in
/-- parse_td_quote_body succeeds exactly when 648 bytes remain past the
cursor. -/
theorem parse_td_quote_body_ok (buf : List Nat) (pos : Nat)
    (h : pos + 648 ≤ buf.length) :
    parse_td_quote_body (buf, pos) =
      Except.ok (bodyAt buf pos, (buf, pos + 648)) := by
  simp only [parse_td_quote_body,
    bind_read_ok 16 buf (pos) (by omega),
    bind_read_ok 48 buf (pos + 16) (by omega),
    bind_read_ok 48 buf (pos + 16 + 48) (by omega),
    bind_read_ok 8 buf (pos + 16 + 48 + 48) (by omega),
    bind_read_ok 8 buf (pos + 16 + 48 + 48 + 8) (by omega),
    bind_read_ok 8 buf (pos + 16 + 48 + 48 + 8 + 8) (by omega),
    bind_read_ok 48 buf (pos + 16 + 48 + 48 + 8 + 8 + 8) (by omega),
    bind_read_ok 48 buf (pos + 16 + 48 + 48 + 8 + 8 + 8 + 48) (by omega),
    bind_read_ok 48 buf (pos + 16 + 48 + 48 + 8 + 8 + 8 + 48 + 48) (by omega),
    bind_read_ok 48 buf (pos + 16 + 48 + 48 + 8 + 8 + 8 + 48 + 48 + 48) (by omega),
    bind_read_ok 48 buf (pos + 16 + 48 + 48 + 8 + 8 + 8 + 48 + 48 + 48 + 48) (by omega),
    bind_read_ok 48 buf (pos + 16 + 48 + 48 + 8 + 8 + 8 + 48 + 48 + 48 + 48 + 48) (by omega),
    bind_read_ok 48 buf (pos + 16 + 48 + 48 + 8 + 8 + 8 + 48 + 48 + 48 + 48 + 48 + 48) (by omega),
    bind_read_ok 48 buf (pos + 16 + 48 + 48 + 8 + 8 + 8 + 48 + 48 + 48 + 48 + 48 + 48 + 48) (by omega),
    bind_read_ok 64 buf (pos + 16 + 48 + 48 + 8 + 8 + 8 + 48 + 48 + 48 + 48 + 48 + 48 + 48 + 48) (by omega),
    bind_read_ok 16 buf (pos + 16 + 48 + 48 + 8 + 8 + 8 + 48 + 48 + 48 + 48 + 48 + 48 + 48 + 48 + 64) (by omega),
    bind_read_ok 48 buf (pos + 16 + 48 + 48 + 8 + 8 + 8 + 48 + 48 + 48 + 48 + 48 + 48 + 48 + 48 + 64 + 16) (by omega)]
  rfl

set_option maxHeartbeats 1600000 in
/-- parse_td_quote_body fails as truncated when fewer than 648 bytes
remain past the cursor. -/
theorem parse_td_quote_body_err (buf : List Nat) (pos : Nat)
    (h : buf.length < pos + 648) :
    parse_td_quote_body (buf, pos) =
      Except.error ParseError.TruncatedInput := by
  by_cases h1 : buf.length < pos + 16
  · simp only [parse_td_quote_body, bind_read_err 16 buf (pos) (by omega)]
  · by_cases h2 : buf.length < pos + 64
    · simp only [parse_td_quote_body, bind_read_ok 16 buf (pos) (by omega), bind_read_err 48 buf (pos + 16) (by omega)]
    · by_cases h3 : buf.length < pos + 112
      · simp only [parse_td_quote_body, bind_read_ok 16 buf (pos) (by omega), bind_read_ok 48 buf (pos + 16) (by omega), bind_read_err 48 buf (pos + 16 + 48) (by omega)]
      · by_cases h4 : buf.length < pos + 120
        · simp only [parse_td_quote_body, bind_read_ok 16 buf (pos) (by omega), bind_read_ok 48 buf (pos + 16) (by omega), bind_read_ok 48 buf (pos + 16 + 48) (by omega), bind_read_err 8 buf (pos + 16 + 48 + 48) (by omega)]
        · by_cases h5 : buf.length < pos + 128
          · simp only [parse_td_quote_body, bind_read_ok 16 buf (pos) (by omega), bind_read_ok 48 buf (pos + 16) (by omega), bind_read_ok 48 buf (pos + 16 + 48) (by omega), bind_read_ok 8 buf (pos + 16 + 48 + 48) (by omega), bind_read_err 8 buf (pos + 16 + 48 + 48 + 8) (by omega)]
          · by_cases h6 : buf.length < pos + 136
            · simp only [parse_td_quote_body, bind_read_ok 16 buf (pos) (by omega), bind_read_ok 48 buf (pos + 16) (by omega), bind_read_ok 48 buf (pos + 16 + 48) (by omega), bind_read_ok 8 buf (pos + 16 + 48 + 48) (by omega), bind_read_ok 8 buf (pos + 16 + 48 + 48 + 8) (by omega), bind_read_err 8 buf (pos + 16 + 48 + 48 + 8 + 8) (by omega)]
            · by_cases h7 : buf.length < pos + 184
              · simp only [parse_td_quote_body, bind_read_ok 16 buf (pos) (by omega), bind_read_ok 48 buf (pos + 16) (by omega), bind_read_ok 48 buf (pos + 16 + 48) (by omega), bind_read_ok 8 buf (pos + 16 + 48 + 48) (by omega), bind_read_ok 8 buf (pos + 16 + 48 + 48 + 8) (by omega), bind_read_ok 8 buf (pos + 16 + 48 + 48 + 8 + 8) (by omega), bind_read_err 48 buf (pos + 16 + 48 + 48 + 8 + 8 + 8) (by omega)]
              · by_cases h8 : buf.length < pos + 232
                · simp only [parse_td_quote_body, bind_read_ok 16 buf (pos) (by omega), bind_read_ok 48 buf (pos + 16) (by omega), bind_read_ok 48 buf (pos + 16 + 48) (by omega), bind_read_ok 8 buf (pos + 16 + 48 + 48) (by omega), bind_read_ok 8 buf (pos + 16 + 48 + 48 + 8) (by omega), bind_read_ok 8 buf (pos + 16 + 48 + 48 + 8 + 8) (by omega), bind_read_ok 48 buf (pos + 16 + 48 + 48 + 8 + 8 + 8) (by omega), bind_read_err 48 buf (pos + 16 + 48 + 48 + 8 + 8 + 8 + 48) (by omega)]
                · by_cases h9 : buf.length < pos + 280
                  · simp only [parse_td_quote_body, bind_read_ok 16 buf (pos) (by omega), bind_read_ok 48 buf (pos + 16) (by omega), bind_read_ok 48 buf (pos + 16 + 48) (by omega), bind_read_ok 8 buf (pos + 16 + 48 + 48) (by omega), bind_read_ok 8 buf (pos + 16 + 48 + 48 + 8) (by omega), bind_read_ok 8 buf (pos + 16 + 48 + 48 + 8 + 8) (by omega), bind_read_ok 48 buf (pos + 16 + 48 + 48 + 8 + 8 + 8) (by omega), bind_read_ok 48 buf (pos + 16 + 48 + 48 + 8 + 8 + 8 + 48) (by omega), bind_read_err 48 buf (pos + 16 + 48 + 48 + 8 + 8 + 8 + 48 + 48) (by omega)]
                  · by_cases h10 : buf.length < pos + 328
                    · simp only [parse_td_quote_body, bind_read_ok 16 buf (pos) (by omega), bind_read_ok 48 buf (pos + 16) (by omega), bind_read_ok 48 buf (pos + 16 + 48) (by omega), bind_read_ok 8 buf (pos + 16 + 48 + 48) (by omega), bind_read_ok 8 buf (pos + 16 + 48 + 48 + 8) (by omega), bind_read_ok 8 buf (pos + 16 + 48 + 48 + 8 + 8) (by omega), bind_read_ok 48 buf (pos + 16 + 48 + 48 + 8 + 8 + 8) (by omega), bind_read_ok 48 buf (pos + 16 + 48 + 48 + 8 + 8 + 8 + 48) (by omega), bind_read_ok 48 buf (pos + 16 + 48 + 48 + 8 + 8 + 8 + 48 + 48) (by omega), bind_read_err 48 buf (pos + 16 + 48 + 48 + 8 + 8 + 8 + 48 + 48 + 48) (by omega)]
                    · by_cases h11 : buf.length < pos + 376
                      · simp only [parse_td_quote_body, bind_read_ok 16 buf (pos) (by omega), bind_read_ok 48 buf (pos + 16) (by omega), bind_read_ok 48 buf (pos + 16 + 48) (by omega), bind_read_ok 8 buf (pos + 16 + 48 + 48) (by omega), bind_read_ok 8 buf (pos + 16 + 48 + 48 + 8) (by omega), bind_read_ok 8 buf (pos + 16 + 48 + 48 + 8 + 8) (by omega), bind_read_ok 48 buf (pos + 16 + 48 + 48 + 8 + 8 + 8) (by omega), bind_read_ok 48 buf (pos + 16 + 48 + 48 + 8 + 8 + 8 + 48) (by omega), bind_read_ok 48 buf (pos + 16 + 48 + 48 + 8 + 8 + 8 + 48 + 48) (by omega), bind_read_ok 48 buf (pos + 16 + 48 + 48 + 8 + 8 + 8 + 48 + 48 + 48) (by omega), bind_read_err 48 buf (pos + 16 + 48 + 48 + 8 + 8 + 8 + 48 + 48 + 48 + 48) (by omega)]
                      · by_cases h12 : buf.length < pos + 424
                        · simp only [parse_td_quote_body, bind_read_ok 16 buf (pos) (by omega), bind_read_ok 48 buf (pos + 16) (by omega), bind_read_ok 48 buf (pos + 16 + 48) (by omega), bind_read_ok 8 buf (pos + 16 + 48 + 48) (by omega), bind_read_ok 8 buf (pos + 16 + 48 + 48 + 8) (by omega), bind_read_ok 8 buf (pos + 16 + 48 + 48 + 8 + 8) (by omega), bind_read_ok 48 buf (pos + 16 + 48 + 48 + 8 + 8 + 8) (by omega), bind_read_ok 48 buf (pos + 16 + 48 + 48 + 8 + 8 + 8 + 48) (by omega), bind_read_ok 48 buf (pos + 16 + 48 + 48 + 8 + 8 + 8 + 48 + 48) (by omega), bind_read_ok 48 buf (pos + 16 + 48 + 48 + 8 + 8 + 8 + 48 + 48 + 48) (by omega), bind_read_ok 48 buf (pos + 16 + 48 + 48 + 8 + 8 + 8 + 48 + 48 + 48 + 48) (by omega), bind_read_err 48 buf (pos + 16 + 48 + 48 + 8 + 8 + 8 + 48 + 48 + 48 + 48 + 48) (by omega)]
                        · by_cases h13 : buf.length < pos + 472
                          · simp only [parse_td_quote_body, bind_read_ok 16 buf (pos) (by omega), bind_read_ok 48 buf (pos + 16) (by omega), bind_read_ok 48 buf (pos + 16 + 48) (by omega), bind_read_ok 8 buf (pos + 16 + 48 + 48) (by omega), bind_read_ok 8 buf (pos + 16 + 48 + 48 + 8) (by omega), bind_read_ok 8 buf (pos + 16 + 48 + 48 + 8 + 8) (by omega), bind_read_ok 48 buf (pos + 16 + 48 + 48 + 8 + 8 + 8) (by omega), bind_read_ok 48 buf (pos + 16 + 48 + 48 + 8 + 8 + 8 + 48) (by omega), bind_read_ok 48 buf (pos + 16 + 48 + 48 + 8 + 8 + 8 + 48 + 48) (by omega), bind_read_ok 48 buf (pos + 16 + 48 + 48 + 8 + 8 + 8 + 48 + 48 + 48) (by omega), bind_read_ok 48 buf (pos + 16 + 48 + 48 + 8 + 8 + 8 + 48 + 48 + 48 + 48) (by omega), bind_read_ok 48 buf (pos + 16 + 48 + 48 + 8 + 8 + 8 + 48 + 48 + 48 + 48 + 48) (by omega), bind_read_err 48 buf (pos + 16 + 48 + 48 + 8 + 8 + 8 + 48 + 48 + 48 + 48 + 48 + 48) (by omega)]
                          · by_cases h14 : buf.length < pos + 520
                            · simp only [parse_td_quote_body, bind_read_ok 16 buf (pos) (by omega), bind_read_ok 48 buf (pos + 16) (by omega), bind_read_ok 48 buf (pos + 16 + 48) (by omega), bind_read_ok 8 buf (pos + 16 + 48 + 48) (by omega), bind_read_ok 8 buf (pos + 16 + 48 + 48 + 8) (by omega), bind_read_ok 8 buf (pos + 16 + 48 + 48 + 8 + 8) (by omega), bind_read_ok 48 buf (pos + 16 + 48 + 48 + 8 + 8 + 8) (by omega), bind_read_ok 48 buf (pos + 16 + 48 + 48 + 8 + 8 + 8 + 48) (by omega), bind_read_ok 48 buf (pos + 16 + 48 + 48 + 8 + 8 + 8 + 48 + 48) (by omega), bind_read_ok 48 buf (pos + 16 + 48 + 48 + 8 + 8 + 8 + 48 + 48 + 48) (by omega), bind_read_ok 48 buf (pos + 16 + 48 + 48 + 8 + 8 + 8 + 48 + 48 + 48 + 48) (by omega), bind_read_ok 48 buf (pos + 16 + 48 + 48 + 8 + 8 + 8 + 48 + 48 + 48 + 48 + 48) (by omega), bind_read_ok 48 buf (pos + 16 + 48 + 48 + 8 + 8 + 8 + 48 + 48 + 48 + 48 + 48 + 48) (by omega), bind_read_err 48 buf (pos + 16 + 48 + 48 + 8 + 8 + 8 + 48 + 48 + 48 + 48 + 48 + 48 + 48) (by omega)]
                            · by_cases h15 : buf.length < pos + 584
                              · simp only [parse_td_quote_body, bind_read_ok 16 buf (pos) (by omega), bind_read_ok 48 buf (pos + 16) (by omega), bind_read_ok 48 buf (pos + 16 + 48) (by omega), bind_read_ok 8 buf (pos + 16 + 48 + 48) (by omega), bind_read_ok 8 buf (pos + 16 + 48 + 48 + 8) (by omega), bind_read_ok 8 buf (pos + 16 + 48 + 48 + 8 + 8) (by omega), bind_read_ok 48 buf (pos + 16 + 48 + 48 + 8 + 8 + 8) (by omega), bind_read_ok 48 buf (pos + 16 + 48 + 48 + 8 + 8 + 8 + 48) (by omega), bind_read_ok 48 buf (pos + 16 + 48 + 48 + 8 + 8 + 8 + 48 + 48) (by omega), bind_read_ok 48 buf (pos + 16 + 48 + 48 + 8 + 8 + 8 + 48 + 48 + 48) (by omega), bind_read_ok 48 buf (pos + 16 + 48 + 48 + 8 + 8 + 8 + 48 + 48 + 48 + 48) (by omega), bind_read_ok 48 buf (pos + 16 + 48 + 48 + 8 + 8 + 8 + 48 + 48 + 48 + 48 + 48) (by omega), bind_read_ok 48 buf (pos + 16 + 48 + 48 + 8 + 8 + 8 + 48 + 48 + 48 + 48 + 48 + 48) (by omega), bind_read_ok 48 buf (pos + 16 + 48 + 48 + 8 + 8 + 8 + 48 + 48 + 48 + 48 + 48 + 48 + 48) (by omega), bind_read_err 64 buf (pos + 16 + 48 + 48 + 8 + 8 + 8 + 48 + 48 + 48 + 48 + 48 + 48 + 48 + 48) (by omega)]
                              · by_cases h16 : buf.length < pos + 600
                                · simp only [parse_td_quote_body, bind_read_ok 16 buf (pos) (by omega), bind_read_ok 48 buf (pos + 16) (by omega), bind_read_ok 48 buf (pos + 16 + 48) (by omega), bind_read_ok 8 buf (pos + 16 + 48 + 48) (by omega), bind_read_ok 8 buf (pos + 16 + 48 + 48 + 8) (by omega), bind_read_ok 8 buf (pos + 16 + 48 + 48 + 8 + 8) (by omega), bind_read_ok 48 buf (pos + 16 + 48 + 48 + 8 + 8 + 8) (by omega), bind_read_ok 48 buf (pos + 16 + 48 + 48 + 8 + 8 + 8 + 48) (by omega), bind_read_ok 48 buf (pos + 16 + 48 + 48 + 8 + 8 + 8 + 48 + 48) (by omega), bind_read_ok 48 buf (pos + 16 + 48 + 48 + 8 + 8 + 8 + 48 + 48 + 48) (by omega), bind_read_ok 48 buf (pos + 16 + 48 + 48 + 8 + 8 + 8 + 48 + 48 + 48 + 48) (by omega), bind_read_ok 48 buf (pos + 16 + 48 + 48 + 8 + 8 + 8 + 48 + 48 + 48 + 48 + 48) (by omega), bind_read_ok 48 buf (pos + 16 + 48 + 48 + 8 + 8 + 8 + 48 + 48 + 48 + 48 + 48 + 48) (by omega), bind_read_ok 48 buf (pos + 16 + 48 + 48 + 8 + 8 + 8 + 48 + 48 + 48 + 48 + 48 + 48 + 48) (by omega), bind_read_ok 64 buf (pos + 16 + 48 + 48 + 8 + 8 + 8 + 48 + 48 + 48 + 48 + 48 + 48 + 48 + 48) (by omega), bind_read_err 16 buf (pos + 16 + 48 + 48 + 8 + 8 + 8 + 48 + 48 + 48 + 48 + 48 + 48 + 48 + 48 + 64) (by omega)]
                                · simp only [parse_td_quote_body, bind_read_ok 16 buf (pos) (by omega), bind_read_ok 48 buf (pos + 16) (by omega), bind_read_ok 48 buf (pos + 16 + 48) (by omega), bind_read_ok 8 buf (pos + 16 + 48 + 48) (by omega), bind_read_ok 8 buf (pos + 16 + 48 + 48 + 8) (by omega), bind_read_ok 8 buf (pos + 16 + 48 + 48 + 8 + 8) (by omega), bind_read_ok 48 buf (pos + 16 + 48 + 48 + 8 + 8 + 8) (by omega), bind_read_ok 48 buf (pos + 16 + 48 + 48 + 8 + 8 + 8 + 48) (by omega), bind_read_ok 48 buf (pos + 16 + 48 + 48 + 8 + 8 + 8 + 48 + 48) (by omega), bind_read_ok 48 buf (pos + 16 + 48 + 48 + 8 + 8 + 8 + 48 + 48 + 48) (by omega), bind_read_ok 48 buf (pos + 16 + 48 + 48 + 8 + 8 + 8 + 48 + 48 + 48 + 48) (by omega), bind_read_ok 48 buf (pos + 16 + 48 + 48 + 8 + 8 + 8 + 48 + 48 + 48 + 48 + 48) (by omega), bind_read_ok 48 buf (pos + 16 + 48 + 48 + 8 + 8 + 8 + 48 + 48 + 48 + 48 + 48 + 48) (by omega), bind_read_ok 48 buf (pos + 16 + 48 + 48 + 8 + 8 + 8 + 48 + 48 + 48 + 48 + 48 + 48 + 48) (by omega), bind_read_ok 64 buf (pos + 16 + 48 + 48 + 8 + 8 + 8 + 48 + 48 + 48 + 48 + 48 + 48 + 48 + 48) (by omega), bind_read_ok 16 buf (pos + 16 + 48 + 48 + 8 + 8 + 8 + 48 + 48 + 48 + 48 + 48 + 48 + 48 + 48 + 64) (by omega), bind_read_err 48 buf (pos + 16 + 48 + 48 + 8 + 8 + 8 + 48 + 48 + 48 + 48 + 48 + 48 + 48 + 48 + 64 + 16) (by omega)]

set_option maxHeartbeats 1600000 in
/-- Master characterization of parse_quote. -/
theorem parse_quote_eq (buf : List Nat) :
    parse_quote buf =
      if buf.length < 8 then Except.error ParseError.TruncatedInput
      else if leValue (slice buf 4 4) = 0 then
        (if buf.length < 702 then Except.error ParseError.TruncatedInput
         else Except.ok (interpQuote buf))
      else if leValue (slice buf 4 4) = 129 then
        (if buf.length < 702 then Except.error ParseError.TruncatedInput
         else Except.ok (interpQuote buf))
      else Except.error ParseError.UnrecognizedTeeType := by
  by_cases h8 : buf.length < 8
  · rw [if_pos h8]
    by_cases hp2 : buf.length < 2
    · simp only [parse_quote, bind_read_u16_err buf 0 (by omega)]
    · by_cases hp4 : buf.length < 4
      · simp only [parse_quote, bind_read_u16_ok buf 0 (by omega),
          Nat.reduceAdd, bind_read_u16_err buf 2 (by omega)]
      · simp only [parse_quote, bind_read_u16_ok buf 0 (by omega),
          bind_read_u16_ok buf 2 (by omega), Nat.reduceAdd,
          bind_read_u32_err buf 4 (by omega)]
  · rw [if_neg h8]
    simp only [parse_quote, bind_read_u16_ok buf 0 (by omega),
      bind_read_u16_ok buf 2 (by omega), bind_read_u32_ok buf 4 (by omega),
      Nat.reduceAdd]
    by_cases ht0 : leValue (slice buf 4 4) = 0
    · rw [if_pos ht0, if_pos ht0]
      simp only [pure_bind_ex]
      by_cases h702 : buf.length < 702
      · rw [if_pos h702]
        by_cases ha1 : buf.length < 10
        · simp only [Nat.reduceAdd, bind_read_err 2 buf 8 (by omega)]
        · by_cases ha2 : buf.length < 12
          · simp only [bind_read_ok 2 buf 8 (by omega), Nat.reduceAdd, bind_read_err 2 buf 10 (by omega)]
          · by_cases ha3 : buf.length < 28
            · simp only [bind_read_ok 2 buf 8 (by omega), bind_read_ok 2 buf 10 (by omega), Nat.reduceAdd, bind_read_err 16 buf 12 (by omega)]
            · by_cases ha4 : buf.length < 48
              · simp only [bind_read_ok 2 buf 8 (by omega), bind_read_ok 2 buf 10 (by omega), bind_read_ok 16 buf 12 (by omega), Nat.reduceAdd, bind_read_err 20 buf 28 (by omega)]
              · by_cases ha5 : buf.length < 50
                · simp only [bind_read_ok 2 buf 8 (by omega), bind_read_ok 2 buf 10 (by omega), bind_read_ok 16 buf 12 (by omega), bind_read_ok 20 buf 28 (by omega), Nat.reduceAdd, bind_read_u16_err buf 48 (by omega)]
                · by_cases ha6 : buf.length < 54
                  · simp only [bind_read_ok 2 buf 8 (by omega), bind_read_ok 2 buf 10 (by omega), bind_read_ok 16 buf 12 (by omega), bind_read_ok 20 buf 28 (by omega), bind_read_u16_ok buf 48 (by omega), Nat.reduceAdd, bind_read_u32_err buf 50 (by omega)]
                  · simp only [bind_read_ok 2 buf 8 (by omega), bind_read_ok 2 buf 10 (by omega), bind_read_ok 16 buf 12 (by omega), bind_read_ok 20 buf 28 (by omega), bind_read_u16_ok buf 48 (by omega), bind_read_u32_ok buf 50 (by omega), Nat.reduceAdd, parse_td_quote_body_err buf 54 (by omega), error_bind]
      · rw [if_neg h702]
        simp only [bind_read_ok 2 buf 8 (by omega), bind_read_ok 2 buf 10 (by omega), bind_read_ok 16 buf 12 (by omega), bind_read_ok 20 buf 28 (by omega), bind_read_u16_ok buf 48 (by omega), bind_read_u32_ok buf 50 (by omega), Nat.reduceAdd, parse_td_quote_body_ok buf 54 (by omega), ok_bind]
        simp only [interpQuote]
        rw [if_pos ht0]
        rfl
    · rw [if_neg ht0, if_neg ht0]
      by_cases ht129 : leValue (slice buf 4 4) = 129
      · rw [if_pos ht129, if_pos ht129]
        simp only [pure_bind_ex]
        by_cases h702 : buf.length < 702
        · rw [if_pos h702]
          by_cases hb1 : buf.length < 10
          · simp only [Nat.reduceAdd, bind_read_err 2 buf 8 (by omega)]
          · by_cases hb2 : buf.length < 12
            · simp only [bind_read_ok 2 buf 8 (by omega), Nat.reduceAdd, bind_read_err 2 buf 10 (by omega)]
            · by_cases hb3 : buf.length < 28
              · simp only [bind_read_ok 2 buf 8 (by omega), bind_read_ok 2 buf 10 (by omega), Nat.reduceAdd, bind_read_err 16 buf 12 (by omega)]
              · by_cases hb4 : buf.length < 48
                · simp only [bind_read_ok 2 buf 8 (by omega), bind_read_ok 2 buf 10 (by omega), bind_read_ok 16 buf 12 (by omega), Nat.reduceAdd, bind_read_err 20 buf 28 (by omega)]
                · by_cases hb5 : buf.length < 50
                  · simp only [bind_read_ok 2 buf 8 (by omega), bind_read_ok 2 buf 10 (by omega), bind_read_ok 16 buf 12 (by omega), bind_read_ok 20 buf 28 (by omega), Nat.reduceAdd, bind_read_u16_err buf 48 (by omega)]
                  · by_cases hb6 : buf.length < 54
                    · simp only [bind_read_ok 2 buf 8 (by omega), bind_read_ok 2 buf 10 (by omega), bind_read_ok 16 buf 12 (by omega), bind_read_ok 20 buf 28 (by omega), bind_read_u16_ok buf 48 (by omega), Nat.reduceAdd, bind_read_u32_err buf 50 (by omega)]
                    · simp only [bind_read_ok 2 buf 8 (by omega), bind_read_ok 2 buf 10 (by omega), bind_read_ok 16 buf 12 (by omega), bind_read_ok 20 buf 28 (by omega), bind_read_u16_ok buf 48 (by omega), bind_read_u32_ok buf 50 (by omega), Nat.reduceAdd, parse_td_quote_body_err buf 54 (by omega), error_bind]
        · rw [if_neg h702]
          simp only [bind_read_ok 2 buf 8 (by omega), bind_read_ok 2 buf 10 (by omega), bind_read_ok 16 buf 12 (by omega), bind_read_ok 20 buf 28 (by omega), bind_read_u16_ok buf 48 (by omega), bind_read_u32_ok buf 50 (by omega), Nat.reduceAdd, parse_td_quote_body_ok buf 54 (by omega), ok_bind]
          simp only [interpQuote]
          rw [if_neg ht0]
          rfl
      · rw [if_neg ht129, if_neg ht129]
        simp only [error_bind]

/-- Taking a prefix of the buffer does not change slices lying inside it. -/
theorem slice_take (l : List Nat) (m a n : Nat) (h : a + n ≤ m) :
    slice (l.take m) a n = slice l a n := by
  simp only [slice, List.drop_take, List.take_take]
  congr 1
  omega

/-- Slices over the window [50, 54) agree when the buffers agree outside
that window. -/
theorem slice_congr (buf1 buf2 : List Nat)
    (hagree : ∀ i, i < 50 ∨ 54 ≤ i → buf1[i]? = buf2[i]?) (a n : Nat)
    (hr : a + n ≤ 50 ∨ 54 ≤ a) : slice buf1 a n = slice buf2 a n := by
  apply List.ext_getElem?
  intro i
  simp only [slice, List.getElem?_take, List.getElem?_drop]
  by_cases hi : i < n
  · simp only [if_pos hi]
    exact hagree (a + i) (by omega)
  · simp only [if_neg hi]

/-- Adjacent slices concatenate. -/
theorem slice_append (l : List Nat) (a m k n s : Nat) (hk : k = a + m)
    (hs : s = m + n) : slice l a m ++ slice l k n = slice l a s := by
  subst hk hs
  simp only [slice]
  rw [List.take_add, ← List.drop_drop]

/-- A slice inside the buffer has the requested length. -/
theorem slice_length (l : List Nat) (a n : Nat) (h : a + n ≤ l.length) :
    (slice l a n).length = n := by
  simp only [slice, List.length_take, List.length_drop]
  omega

/-- Bytes of a slice are bytes of the buffer. -/
theorem mem_slice {b : Nat} {l : List Nat} {a n : Nat} (h : b ∈ slice l a n) :
    b ∈ l := List.mem_of_mem_drop (List.mem_of_mem_take h)

theorem u16_bytes_leValue (l : List Nat) (hl : l.length = 2)
    (hb : ∀ b ∈ l, b < 256) : u16_bytes (leValue l) = l := by
  cases l with
  | nil => simp only [List.length_nil] at hl; omega
  | cons a t =>
    cases t with
    | nil => simp only [List.length_cons, List.length_nil] at hl; omega
    | cons b t2 =>
      cases t2 with
      | cons c t3 => simp only [List.length_cons] at hl; omega
      | nil =>
        have ha : a < 256 := hb a (by simp)
        have hbb : b < 256 := hb b (by simp)
        simp only [u16_bytes, leValue, List.cons.injEq, and_true]
        constructor <;> omega

theorem u32_bytes_leValue (l : List Nat) (hl : l.length = 4)
    (hb : ∀ b ∈ l, b < 256) : u32_bytes (leValue l) = l := by
  cases l with
  | nil => simp only [List.length_nil] at hl; omega
  | cons a t => cases t with
    | nil => simp only [List.length_cons, List.length_nil] at hl; omega
    | cons b t2 => cases t2 with
      | nil => simp only [List.length_cons, List.length_nil] at hl; omega
      | cons c t3 => cases t3 with
        | nil => simp only [List.length_cons, List.length_nil] at hl; omega
        | cons d t4 => cases t4 with
          | cons e t5 => simp only [List.length_cons] at hl; omega
          | nil =>
            have ha : a < 256 := hb a (by simp)
            have hbb : b < 256 := hb b (by simp)
            have hc : c < 256 := hb c (by simp)
            have hd : d < 256 := hb d (by simp)
            simp only [u32_bytes, leValue, List.cons.injEq, and_true]
            refine ⟨?_, ?_, ?_, ?_⟩ <;> omega

/-- Success of parse_quote on a long enough buffer with a known TEE type. -/
theorem parse_quote_ok (buf : List Nat)
    (htee : leValue (slice buf 4 4) = 0 ∨ leValue (slice buf 4 4) = 129)
    (hlen : 702 ≤ buf.length) :
    parse_quote buf = Except.ok (interpQuote buf) := by
  rw [parse_quote_eq]
  rcases htee with h | h
  · rw [if_neg (by omega), if_pos h, if_neg (by omega)]
  · by_cases h0 : leValue (slice buf 4 4) = 0
    · rw [if_neg (by omega), if_pos h0, if_neg (by omega)]
    · rw [if_neg (by omega), if_neg h0, if_pos h, if_neg (by omega)]

/-- Failure of parse_quote with an unknown TEE type on at least 8 bytes. -/
theorem parse_quote_unrec (buf : List Nat) (h8 : 8 ≤ buf.length)
    (h0 : leValue (slice buf 4 4) ≠ 0) (h129 : leValue (slice buf 4 4) ≠ 129) :
    parse_quote buf = Except.error ParseError.UnrecognizedTeeType := by
  rw [parse_quote_eq, if_neg (by omega), if_neg h0, if_neg h129]

/-- Re-encoding the interpreted fields of a well-formed 702-byte buffer
reproduces the buffer. -/
theorem encode_interp (buf : List Nat) (hlen : buf.length = 702)
    (hbytes : ∀ b ∈ buf, b < 256)
    (htee : leValue (slice buf 4 4) = 0 ∨ leValue (slice buf 4 4) = 129) :
    encode_quote (interpQuote buf) = buf := by
  have hsb : ∀ a n, ∀ b ∈ slice buf a n, b < 256 := fun a n b hb =>
    hbytes b (mem_slice hb)
  have h16 : ∀ a, a + 2 ≤ 702 →
      u16_bytes (leValue (slice buf a 2)) = slice buf a 2 := fun a h =>
    u16_bytes_leValue _ (slice_length buf a 2 (by omega)) (hsb a 2)
  have h32 : ∀ a, a + 4 ≤ 702 →
      u32_bytes (leValue (slice buf a 4)) = slice buf a 4 := fun a h =>
    u32_bytes_leValue _ (slice_length buf a 4 (by omega)) (hsb a 4)
  have htb : tee_type_bytes
      (if leValue (slice buf 4 4) = 0 then TEEType.SGX else TEEType.TDX) =
      slice buf 4 4 := by
    rcases htee with h | h
    · have h4 := h32 4 (by omega)
      rw [h] at h4
      rw [if_pos h, ← h4]
      rfl
    · have h4 := h32 4 (by omega)
      rw [h] at h4
      by_cases h0 : leValue (slice buf 4 4) = 0
      · rw [h0] at h; omega
      · rw [if_neg h0, ← h4]
        rfl
  simp only [encode_quote, interpQuote, bodyAt, Nat.reduceAdd]
  rw [h16 0 (by omega), h16 2 (by omega), htb, h16 48 (by omega),
    h32 50 (by omega)]
  rw [slice_append buf 0 2 2 2 4 (by norm_num) (by norm_num),
    slice_append buf 0 4 4 4 8 (by norm_num) (by norm_num),
    slice_append buf 0 8 8 2 10 (by norm_num) (by norm_num),
    slice_append buf 0 10 10 2 12 (by norm_num) (by norm_num),
    slice_append buf 0 12 12 16 28 (by norm_num) (by norm_num),
    slice_append buf 0 28 28 20 48 (by norm_num) (by norm_num),
    slice_append buf 0 48 48 2 50 (by norm_num) (by norm_num),
    slice_append buf 0 50 50 4 54 (by norm_num) (by norm_num),
    slice_append buf 0 54 54 16 70 (by norm_num) (by norm_num),
    slice_append buf 0 70 70 48 118 (by norm_num) (by norm_num),
    slice_append buf 0 118 118 48 166 (by norm_num) (by norm_num),
    slice_append buf 0 166 166 8 174 (by norm_num) (by norm_num),
    slice_append buf 0 174 174 8 182 (by norm_num) (by norm_num),
    slice_append buf 0 182 182 8 190 (by norm_num) (by norm_num),
    slice_append buf 0 190 190 48 238 (by norm_num) (by norm_num),
    slice_append buf 0 238 238 48 286 (by norm_num) (by norm_num),
    slice_append buf 0 286 286 48 334 (by norm_num) (by norm_num),
    slice_append buf 0 334 334 48 382 (by norm_num) (by norm_num),
    slice_append buf 0 382 382 48 430 (by norm_num) (by norm_num),
    slice_append buf 0 430 430 48 478 (by norm_num) (by norm_num),
    slice_append buf 0 478 478 48 526 (by norm_num) (by norm_num),
    slice_append buf 0 526 526 48 574 (by norm_num) (by norm_num),
    slice_append buf 0 574 574 64 638 (by norm_num) (by norm_num),
    slice_append buf 0 638 638 16 654 (by norm_num) (by norm_num),
    slice_append buf 0 654 654 48 702 (by norm_num) (by norm_num)]
  simp only [slice, List.drop_zero]
  exact List.take_of_length_le (by omega)

/-- C1 (amended): for every 702-byte buffer of bytes with TEE type 0 or
0x81, decoding succeeds and every field of the quote is the byte slice or
little-endian integer of the input at its documented offset, and the
concatenating encoder reproduces the buffer. -/
theorem c1_decode_fields (buf : List Nat) (hlen : buf.length = 702)
    (hbytes : ∀ b ∈ buf, b < 256)
    (htee : leValue (slice buf 4 4) = 0 ∨ leValue (slice buf 4 4) = 129) :
    ∃ q, parse_quote buf = Except.ok q ∧
      (q.header.version = leValue (slice buf 0 2) ∧
       q.header.attestation_key_type = leValue (slice buf 2 2) ∧
       q.header.tee_type =
         (if leValue (slice buf 4 4) = 0 then TEEType.SGX else TEEType.TDX) ∧
       q.header.reserved1 = slice buf 8 2 ∧
       q.header.reserved2 = slice buf 10 2 ∧
       q.header.qe_vendor_id = slice buf 12 16 ∧
       q.header.user_data = slice buf 28 20 ∧
       q.body.td_quote_body_type = leValue (slice buf 48 2) ∧
       q.body.size = leValue (slice buf 50 4) ∧
       q.body.td_quote_body.tee_tcb_svn = slice buf 54 16 ∧
       q.body.td_quote_body.mrseam = slice buf 70 48 ∧
       q.body.td_quote_body.mrsignerseam = slice buf 118 48 ∧
       q.body.td_quote_body.seamattributes = slice buf 166 8 ∧
       q.body.td_quote_body.tdattributes = slice buf 174 8 ∧
       q.body.td_quote_body.xfam = slice buf 182 8 ∧
       q.body.td_quote_body.mrtd = slice buf 190 48 ∧
       q.body.td_quote_body.mrconfigid = slice buf 238 48 ∧
       q.body.td_quote_body.mrowner = slice buf 286 48 ∧
       q.body.td_quote_body.mrownerconfig = slice buf 334 48 ∧
       q.body.td_quote_body.rtmr0 = slice buf 382 48 ∧
       q.body.td_quote_body.rtmr1 = slice buf 430 48 ∧
       q.body.td_quote_body.rtmr2 = slice buf 478 48 ∧
       q.body.td_quote_body.rtmr3 = slice buf 526 48 ∧
       q.body.td_quote_body.reportdata = slice buf 574 64 ∧
       q.body.td_quote_body.tee_tcb_svn_2 = slice buf 638 16 ∧
       q.body.td_quote_body.mrservicetd = slice buf 654 48) ∧
      encode_quote q = buf := by
  refine ⟨interpQuote buf, parse_quote_ok buf htee (by omega), ?_,
    encode_interp buf hlen hbytes htee⟩
  simp [interpQuote, bodyAt]

/-- C1 witness: the all-zero 702-byte buffer decodes and re-encodes. -/
theorem c1_decode_fields_witness :
    ∃ q, parse_quote (List.replicate 702 0) = Except.ok q ∧
      encode_quote q = List.replicate 702 0 := by
  obtain ⟨q, hok, -, henc⟩ := c1_decode_fields (List.replicate 702 0)
    (by simp)
    (fun b hb => by have := List.eq_of_mem_replicate hb; omega)
    (Or.inl (by decide))
  exact ⟨q, hok, henc⟩

/-- C1 counterexample: a 638-byte buffer with TEE type 0 is rejected as
truncated, so decoding a 638-byte buffer does not succeed as claimed. -/
theorem c1_at_638_counterexample :
    (List.replicate 638 0).length = 638 ∧
    leValue (slice (List.replicate 638 0) 4 4) = 0 ∧
    parse_quote (List.replicate 638 0) =
      Except.error ParseError.TruncatedInput := by
  refine ⟨by decide, by decide, ?_⟩
  rw [parse_quote_eq, if_neg (by decide), if_pos (by decide),
    if_pos (by decide)]

/-- C6 (amended): decoding is a pure function of the first 702 bytes of
the buffer; trailing bytes beyond offset 702 are ignored. -/
theorem c6_consumes_first_702 (buf : List Nat) :
    parse_quote buf = parse_quote (buf.take 702) := by
  by_cases h : 702 ≤ buf.length
  · have hlen : (buf.take 702).length = 702 := by
      simp only [List.length_take]; omega
    rw [parse_quote_eq buf, parse_quote_eq (buf.take 702), hlen,
      slice_take buf 702 4 4 (by omega)]
    have hiq : interpQuote (buf.take 702) = interpQuote buf := by
      simp only [interpQuote, bodyAt, Nat.reduceAdd]
      rw [slice_take buf 702 0 2 (by omega), slice_take buf 702 2 2 (by omega),
        slice_take buf 702 4 4 (by omega), slice_take buf 702 8 2 (by omega),
        slice_take buf 702 10 2 (by omega), slice_take buf 702 12 16 (by omega),
        slice_take buf 702 28 20 (by omega), slice_take buf 702 48 2 (by omega),
        slice_take buf 702 50 4 (by omega), slice_take buf 702 54 16 (by omega),
        slice_take buf 702 70 48 (by omega), slice_take buf 702 118 48 (by omega),
        slice_take buf 702 166 8 (by omega), slice_take buf 702 174 8 (by omega),
        slice_take buf 702 182 8 (by omega), slice_take buf 702 190 48 (by omega),
        slice_take buf 702 238 48 (by omega), slice_take buf 702 286 48 (by omega),
        slice_take buf 702 334 48 (by omega), slice_take buf 702 382 48 (by omega),
        slice_take buf 702 430 48 (by omega), slice_take buf 702 478 48 (by omega),
        slice_take buf 702 526 48 (by omega), slice_take buf 702 574 64 (by omega),
        slice_take buf 702 638 16 (by omega), slice_take buf 702 654 48 (by omega)]
    rw [hiq]
    split_ifs <;> first | rfl | omega
  · rw [List.take_of_length_le (by omega)]

/-- C6 counterexample: an 800-byte all-zero buffer decodes, but its first
638 bytes alone are rejected as truncated, so the decoder reads past
offset 638. -/
theorem c6_at_638_counterexample :
    (∃ q, parse_quote (List.replicate 800 0) = Except.ok q) ∧
    parse_quote ((List.replicate 800 0).take 638) =
      Except.error ParseError.TruncatedInput := by
  constructor
  · exact ⟨interpQuote (List.replicate 800 0),
      parse_quote_ok _ (Or.inl (by decide)) (by simp)⟩
  · rw [parse_quote_eq, if_neg (by decide), if_pos (by decide),
      if_pos (by decide)]

/-- C5 (amended): the declared size field (bytes 50 to 53) is advisory:
buffers that agree outside that window decode to the same outcome, equal
in every field but the stored size, and for a recognized TEE type success
depends only on having the fixed 702 bytes (48-byte header, 6 bytes of
discriminator and size, 648-byte body). -/
theorem c5_size_advisory (buf1 buf2 : List Nat)
    (hlen : buf1.length = buf2.length)
    (hagree : ∀ i, i < 50 ∨ 54 ≤ i → buf1[i]? = buf2[i]?) :
    (∀ e, parse_quote buf1 = Except.error e ↔
      parse_quote buf2 = Except.error e) ∧
    (∀ q1 q2, parse_quote buf1 = Except.ok q1 →
      parse_quote buf2 = Except.ok q2 →
      q1.header = q2.header ∧
      q1.body.td_quote_body_type = q2.body.td_quote_body_type ∧
      q1.body.td_quote_body = q2.body.td_quote_body) ∧
    ((∃ q, parse_quote buf1 = Except.ok q) ↔
      (∃ q, parse_quote buf2 = Except.ok q)) ∧
    ((leValue (slice buf1 4 4) = 0 ∨ leValue (slice buf1 4 4) = 129) →
      ((∃ q, parse_quote buf1 = Except.ok q) ↔ 702 ≤ buf1.length)) := by
  have hs : ∀ a n, a + n ≤ 50 ∨ 54 ≤ a → slice buf1 a n = slice buf2 a n :=
    fun a n h => slice_congr buf1 buf2 hagree a n h
  have h44 : slice buf1 4 4 = slice buf2 4 4 := hs 4 4 (by omega)
  have hih : (interpQuote buf1).header = (interpQuote buf2).header := by
    simp only [interpQuote]
    rw [hs 0 2 (by omega), hs 2 2 (by omega), h44, hs 8 2 (by omega),
      hs 10 2 (by omega), hs 12 16 (by omega), hs 28 20 (by omega)]
  have hit : (interpQuote buf1).body.td_quote_body_type =
      (interpQuote buf2).body.td_quote_body_type := by
    simp only [interpQuote]
    rw [hs 48 2 (by omega)]
  have hib : (interpQuote buf1).body.td_quote_body =
      (interpQuote buf2).body.td_quote_body := by
    simp only [interpQuote, bodyAt, Nat.reduceAdd]
    rw [hs 54 16 (by omega), hs 70 48 (by omega), hs 118 48 (by omega),
      hs 166 8 (by omega), hs 174 8 (by omega), hs 182 8 (by omega),
      hs 190 48 (by omega), hs 238 48 (by omega), hs 286 48 (by omega),
      hs 334 48 (by omega), hs 382 48 (by omega), hs 430 48 (by omega),
      hs 478 48 (by omega), hs 526 48 (by omega), hs 574 64 (by omega),
      hs 638 16 (by omega), hs 654 48 (by omega)]
  rw [parse_quote_eq buf1, parse_quote_eq buf2, ← hlen, ← h44]
  split_ifs with hA hB hC hD
  · exact ⟨fun e => Iff.rfl, fun q1 q2 h1 q2h => absurd h1 (by simp),
      Iff.rfl, fun _ => ⟨fun hq => by rcases hq with ⟨q, hq⟩; simp at hq,
        fun hl => by omega⟩⟩
  · exact ⟨fun e => Iff.rfl, fun q1 q2 h1 q2h => absurd h1 (by simp),
      Iff.rfl, fun _ => ⟨fun hq => by rcases hq with ⟨q, hq⟩; simp at hq,
        fun hl => by omega⟩⟩
  · refine ⟨fun e => ⟨fun hq => by simp at hq, fun hq => by simp at hq⟩,
      fun q1 q2 h1 h2 => ?_, ⟨fun _ => ⟨_, rfl⟩, fun _ => ⟨_, rfl⟩⟩,
      fun _ => ⟨fun _ => by omega, fun _ => ⟨_, rfl⟩⟩⟩
    injection h1 with h1
    injection h2 with h2
    rw [← h1, ← h2]
    exact ⟨hih, hit, hib⟩
  · exact ⟨fun e => Iff.rfl, fun q1 q2 h1 q2h => absurd h1 (by simp),
      Iff.rfl, fun _ => ⟨fun hq => by rcases hq with ⟨q, hq⟩; simp at hq,
        fun hl => by omega⟩⟩
  · refine ⟨fun e => ⟨fun hq => by simp at hq, fun hq => by simp at hq⟩,
      fun q1 q2 h1 h2 => ?_, ⟨fun _ => ⟨_, rfl⟩, fun _ => ⟨_, rfl⟩⟩,
      fun _ => ⟨fun _ => by omega, fun _ => ⟨_, rfl⟩⟩⟩
    injection h1 with h1
    injection h2 with h2
    rw [← h1, ← h2]
    exact ⟨hih, hit, hib⟩
  · refine ⟨fun e => Iff.rfl, fun q1 q2 h1 q2h => absurd h1 (by simp),
      Iff.rfl, fun ht => ?_⟩
    rcases ht with ht | ht
    · exact absurd ht hB
    · exact absurd ht hD

/-- C5 witness: the all-zero 702-byte buffer and the same buffer with its
declared-size byte 50 set to 7 both decode. -/
theorem c5_size_advisory_witness :
    ((∃ q, parse_quote (List.replicate 702 0) = Except.ok q) ↔
      (∃ q, parse_quote ((List.replicate 702 0).set 50 7) = Except.ok q)) ∧
    ((∃ q, parse_quote (List.replicate 702 0) = Except.ok q) ↔
      702 ≤ (List.replicate 702 0).length) := by
  obtain ⟨-, -, hiff, hfix⟩ := c5_size_advisory (List.replicate 702 0)
    ((List.replicate 702 0).set 50 7) (by simp)
    (fun i hi => (List.getElem?_set_ne (by omega)).symm)
  exact ⟨hiff, hfix (Or.inl (by decide))⟩

/-- C5 counterexample: a 644-byte all-zero buffer is longer than the
claimed 48 + 6 + 584 = 638 fixed region, yet decoding still reports a
truncated input, so the fixed body schema of the decoder is not 584
bytes. -/
theorem c5_body_584_counterexample :
    638 ≤ (List.replicate 644 0).length ∧
    leValue (slice (List.replicate 644 0) 4 4) = 0 ∧
    parse_quote (List.replicate 644 0) =
      Except.error ParseError.TruncatedInput := by
  refine ⟨by decide, by decide, ?_⟩
  rw [parse_quote_eq, if_neg (by decide), if_pos (by decide),
    if_pos (by decide)]

/-- C3 (amended): every buffer shorter than 638 bytes fails to decode; the
error is TruncatedInput whenever the buffer has fewer than 8 bytes or its
TEE-type field is a recognized value, the TEE-type check failing first
otherwise. -/
theorem c3_truncated (buf : List Nat) (hlen : buf.length < 638) :
    (∀ q, parse_quote buf ≠ Except.ok q) ∧
    ((buf.length < 8 ∨ leValue (slice buf 4 4) = 0 ∨
        leValue (slice buf 4 4) = 129) →
      parse_quote buf = Except.error ParseError.TruncatedInput) := by
  rw [parse_quote_eq]
  constructor
  · intro q
    split_ifs <;> first | omega | simp
  · intro h
    split_ifs <;> first | rfl | omega

/-- C3 witness: a 10-byte all-zero buffer is reported as truncated. -/
theorem c3_truncated_witness :
    parse_quote (List.replicate 10 0) =
      Except.error ParseError.TruncatedInput :=
  (c3_truncated (List.replicate 10 0) (by decide)).2
    (Or.inr (Or.inl (by decide)))

/-- C3 counterexample: an 8-byte buffer with TEE type 1 is shorter than
638 bytes but fails with UnrecognizedTeeType, not TruncatedInput. -/
theorem c3_short_bad_tee_counterexample :
    ([0, 0, 0, 0, 1, 0, 0, 0] : List Nat).length < 638 ∧
    parse_quote [0, 0, 0, 0, 1, 0, 0, 0] ≠
      Except.error ParseError.TruncatedInput ∧
    parse_quote [0, 0, 0, 0, 1, 0, 0, 0] =
      Except.error ParseError.UnrecognizedTeeType := by
  have h : parse_quote [0, 0, 0, 0, 1, 0, 0, 0] =
      Except.error ParseError.UnrecognizedTeeType := by
    rw [parse_quote_eq, if_neg (by decide), if_neg (by decide),
      if_neg (by decide)]
  refine ⟨by decide, ?_, h⟩
  rw [h]
  simp

/-- C4: a buffer of at least 8 bytes whose TEE-type field is neither 0 nor
0x81 fails with UnrecognizedTeeType, and the outcome is the same for every
buffer sharing its first 8 bytes: nothing past the TEE type is read. -/
theorem c4_unrecognized_tee (buf : List Nat) (h8 : 8 ≤ buf.length)
    (h0 : leValue (slice buf 4 4) ≠ 0)
    (h129 : leValue (slice buf 4 4) ≠ 129) :
    parse_quote buf = Except.error ParseError.UnrecognizedTeeType ∧
    ∀ buf2 : List Nat, 8 ≤ buf2.length → buf2.take 8 = buf.take 8 →
      parse_quote buf2 = Except.error ParseError.UnrecognizedTeeType := by
  refine ⟨parse_quote_unrec buf h8 h0 h129, fun buf2 h2 htake => ?_⟩
  have hEq : slice buf2 4 4 = slice buf 4 4 := by
    rw [← slice_take buf2 8 4 4 (by omega), htake,
      slice_take buf 8 4 4 (by omega)]
  apply parse_quote_unrec buf2 h2
  · rw [hEq]; exact h0
  · rw [hEq]; exact h129

/-- C4 witness: TEE type 7 is rejected without reading the rest. -/
theorem c4_unrecognized_tee_witness :
    parse_quote [0, 0, 0, 0, 7, 0, 0, 0, 1, 2] =
      Except.error ParseError.UnrecognizedTeeType :=
  (c4_unrecognized_tee [0, 0, 0, 0, 7, 0, 0, 0, 1, 2] (by decide)
    (by decide) (by decide)).1

/-- C9: the TEE-type check precedes truncation detection: buffers of at
least 8 bytes but shorter than 638 with an unrecognized TEE type fail with
UnrecognizedTeeType, not TruncatedInput. -/
theorem c9_tee_precedence (buf : List Nat) (h8 : 8 ≤ buf.length)
    (_hshort : buf.length < 638) (h0 : leValue (slice buf 4 4) ≠ 0)
    (h129 : leValue (slice buf 4 4) ≠ 129) :
    parse_quote buf = Except.error ParseError.UnrecognizedTeeType :=
  parse_quote_unrec buf h8 h0 h129

/-- C9 witness: an 8-byte buffer with TEE type 2 is rejected for its TEE
type even though it is far shorter than a full quote. -/
theorem c9_tee_precedence_witness :
    parse_quote [0, 0, 0, 0, 2, 0, 0, 0] =
      Except.error ParseError.UnrecognizedTeeType :=
  c9_tee_precedence [0, 0, 0, 0, 2, 0, 0, 0] (by decide) (by decide)
    (by decide) (by decide)

/-- C2 (amended): on byte inputs, the decomposer returns DEBUG as bit 0 of
the little-endian word w, TUD RESERVED as bits 1 to 7, SEC RESERVED as
bits 8 to 27 (a 20-bit integer: the mask overlaps SEPT_VE_DISABLE),
SEPT_VE_DISABLE as bit 27, PKS as bit 30, KL as bit 31, OTHER RESERVED as
bits 32 to 62, and PERFMON as bit 63. -/
theorem c2_bit_decomposition (a0 a1 a2 a3 a4 a5 a6 a7 : Nat)
    (h0 : a0 < 256) (h1 : a1 < 256) (h2 : a2 < 256) (h3 : a3 < 256)
    (h4 : a4 < 256) (h5 : a5 < 256) (h6 : a6 < 256) (h7 : a7 < 256)
    (w : Nat) (hw : w = leValue [a0, a1, a2, a3, a4, a5, a6, a7]) :
    ((extract_tdattributes_info a0 a1 a2 a3 a4 a5 a6 a7).debug = true ↔
      w % 2 = 1) ∧
    (extract_tdattributes_info a0 a1 a2 a3 a4 a5 a6 a7).tud_reserved =
      w / 2 % 2 ^ 7 ∧
    (extract_tdattributes_info a0 a1 a2 a3 a4 a5 a6 a7).sec_reserved =
      w / 2 ^ 8 % 2 ^ 20 ∧
    (extract_tdattributes_info a0 a1 a2 a3 a4 a5 a6 a7).sept_ve_disable =
      w / 2 ^ 27 % 2 ∧
    (extract_tdattributes_info a0 a1 a2 a3 a4 a5 a6 a7).pks =
      w / 2 ^ 30 % 2 ∧
    (extract_tdattributes_info a0 a1 a2 a3 a4 a5 a6 a7).kl =
      w / 2 ^ 31 % 2 ∧
    (extract_tdattributes_info a0 a1 a2 a3 a4 a5 a6 a7).other_reserved =
      w / 2 ^ 32 % 2 ^ 31 ∧
    (extract_tdattributes_info a0 a1 a2 a3 a4 a5 a6 a7).perfmon =
      w / 2 ^ 63 % 2 := by
  subst hw
  simp only [extract_tdattributes_info, leValue, Nat.shiftRight_eq_div_pow,
    Nat.and_one_is_mod]
  rw [show (127 : Nat) = 2 ^ 7 - 1 by norm_num,
    show (1048575 : Nat) = 2 ^ 20 - 1 by norm_num,
    show (2147483647 : Nat) = 2 ^ 31 - 1 by norm_num]
  simp only [Nat.and_pow_two_sub_one_eq_mod]
  refine ⟨?_, ?_, ?_, ?_, ?_, ?_, ?_, ?_⟩
  · simp only [bne_iff_ne, ne_eq]
    constructor <;> intro hx <;> omega
  all_goals omega

/-- C2 witness: the all-ones input puts every reserved field at the
maximum of its actual width; SEC RESERVED reaches 1048575, not 524287. -/
theorem c2_bit_decomposition_witness :
    (extract_tdattributes_info 255 255 255 255 255 255 255 255).sec_reserved
      = 1048575 ∧
    (extract_tdattributes_info 255 255 255 255 255 255 255 255).kl = 1 ∧
    (extract_tdattributes_info 255 255 255 255 255 255 255 255).perfmon
      = 1 := by
  obtain ⟨-, -, hsec, -, -, hkl, -, hperf⟩ :=
    c2_bit_decomposition 255 255 255 255 255 255 255 255 (by decide)
      (by decide) (by decide) (by decide) (by decide) (by decide)
      (by decide) (by decide)
      (leValue [255, 255, 255, 255, 255, 255, 255, 255]) rfl
  exact ⟨hsec.trans (by decide), hkl.trans (by decide),
    hperf.trans (by decide)⟩

/-- C2 counterexample: with only bit 27 of the word set (byte 3 equal to
8) the code reports SEC RESERVED 524288, while bits 8 to 26 of the word
are all zero; and on the all-ones input SEC RESERVED is not 524287. -/
theorem c2_sec_reserved_counterexample :
    (extract_tdattributes_info 0 0 0 8 0 0 0 0).sec_reserved = 524288 ∧
    leValue [0, 0, 0, 8, 0, 0, 0, 0] / 2 ^ 8 % 2 ^ 19 = 0 ∧
    (extract_tdattributes_info 255 255 255 255 255 255 255 255).sec_reserved
      ≠ 524287 := by
  refine ⟨by decide, by decide, by decide⟩

/-- C7: the three point scenarios of the spec, evaluated on the code. -/
theorem c7_point_scenarios :
    (extract_tdattributes_info 1 0 0 0 0 0 0 0).debug = true ∧
    (extract_tdattributes_info 1 0 0 0 0 0 0 0).tud_reserved = 0 ∧
    (extract_tdattributes_info 0 0 0 128 0 0 0 0).kl = 1 ∧
    (extract_tdattributes_info 0 0 0 128 0 0 0 0).pks = 0 ∧
    (extract_tdattributes_info 0 0 0 128 0 0 0 0).sept_ve_disable = 0 ∧
    (extract_tdattributes_info 0 0 0 0 0 0 0 128).perfmon = 1 ∧
    (extract_tdattributes_info 0 0 0 0 0 0 0 128).other_reserved = 0 := by
  decide

/-- C8: the decomposer is a total deterministic function: every 8-byte
input has exactly one result. -/
theorem c8_total_deterministic (a0 a1 a2 a3 a4 a5 a6 a7 : Nat) :
    ∃! r, extract_tdattributes_info a0 a1 a2 a3 a4 a5 a6 a7 = r :=
  ⟨extract_tdattributes_info a0 a1 a2 a3 a4 a5 a6 a7, rfl,
    fun _ hy => hy.symm⟩

/-- C10: byte inputs whose words differ only in bits 28 and 29 (bits 4
and 5 of byte 3) decompose identically. -/
theorem c10_bits_28_29 (a0 a1 a2 a3 b3 a4 a5 a6 a7 : Nat)
    (h1 : a1 < 256) (h2 : a2 < 256) (h3 : a3 < 256) (hb3 : b3 < 256)
    (hlow : a3 % 16 = b3 % 16) (hhigh : a3 / 64 = b3 / 64) :
    extract_tdattributes_info a0 a1 a2 a3 a4 a5 a6 a7 =
      extract_tdattributes_info a0 a1 a2 b3 a4 a5 a6 a7 := by
  simp only [extract_tdattributes_info, leValue, Nat.shiftRight_eq_div_pow,
    Nat.and_one_is_mod]
  rw [show (1048575 : Nat) = 2 ^ 20 - 1 by norm_num]
  simp only [Nat.and_pow_two_sub_one_eq_mod]
  simp only [TDAttributesInfo.mk.injEq]
  have hres : ∀ x3 : Nat, x3 < 256 →
      (0 + 256 * (a1 + 256 * (a2 + 256 * (x3 + 256 * 0)))) / 2 ^ 8 % 2 ^ 20
        = a1 + 256 * a2 + 65536 * (x3 % 16) := by
    intro x3 hx; omega
  have hsept : ∀ x3 : Nat, x3 < 256 →
      (0 + 256 * (a1 + 256 * (a2 + 256 * (x3 + 256 * 0)))) / 2 ^ 27 % 2
        = x3 / 8 % 2 := by
    intro x3 hx; omega
  have hpks : ∀ x3 : Nat, x3 < 256 →
      (0 + 256 * (a1 + 256 * (a2 + 256 * (x3 + 256 * 0)))) / 2 ^ 30 % 2
        = x3 / 64 % 2 := by
    intro x3 hx; omega
  have hkl : ∀ x3 : Nat, x3 < 256 →
      (0 + 256 * (a1 + 256 * (a2 + 256 * (x3 + 256 * 0)))) / 2 ^ 31 % 2
        = x3 / 128 % 2 := by
    intro x3 hx; omega
  refine ⟨trivial, trivial, ?_, ?_, ?_, ?_, trivial, trivial⟩
  · rw [hres a3 h3, hres b3 hb3, hlow]
  · rw [hsept a3 h3, hsept b3 hb3]; omega
  · rw [hpks a3 h3, hpks b3 hb3, hhigh]
  · have h128 : a3 / 128 = b3 / 128 := by
      rw [show (128 : Nat) = 64 * 2 by norm_num, ← Nat.div_div_eq_div_mul,
        ← Nat.div_div_eq_div_mul, hhigh]
    rw [hkl a3 h3, hkl b3 hb3, h128]

/-- C10 witness: setting bits 28 and 29 alone (byte 3 equal to 48) does
not change the decomposition. -/
theorem c10_bits_28_29_witness :
    extract_tdattributes_info 0 0 0 48 0 0 0 0 =
      extract_tdattributes_info 0 0 0 0 0 0 0 0 :=
  c10_bits_28_29 0 0 0 48 0 0 0 0 0 (by decide) (by decide) (by decide)
    (by decide) (by decide) (by decide)

end TdxQuote

